import Mathlib

/-!
# Verification of `oops/oops.cpp`

A shallow embedding of the class `student` (three constructors and `printinfo`)
and of the driver `main`, over an explicit machine state: a store of `student`
objects indexed by address, and the text written so far to `cout`.

* `std::string` is embedded as `String`, `int` as `Int` (no arithmetic is ever
  performed on the field, so no wrap-around is involved; every 32-bit `int` is
  an `Int`).
* A constructor runs on the storage of the object under construction (`this`);
  what that storage held before is arbitrary.
* `cout << x` appends to the text written so far.
* A second run of the same operations tracks which objects are constructed, and has no
  result where an operation would use an object that is not.
-/

set_option linter.dupNamespace false

namespace Oops

/-- The class `student`: two data members, `string key` and `int value`. -/
structure student where
  key : String
  value : Int
deriving DecidableEq, Repr

/-- Address of a `student` object. -/
abbrev Addr := Nat

/-- Machine state: the `student` objects in storage, and the text written to `cout`. -/
structure Machine where
  objs : Addr → student
  cout : String

/-- The assignment `o->key = k` on the object at address `o`. -/
def assign_key (σ : Machine) (o : Addr) (k : String) : Machine :=
  { σ with objs := fun a => if a = o then { σ.objs o with key := k } else σ.objs a }

/-- The assignment `o->value = v` on the object at address `o`. -/
def assign_value (σ : Machine) (o : Addr) (v : Int) : Machine :=
  { σ with objs := fun a => if a = o then { σ.objs o with value := v } else σ.objs a }

/-- Member initialisation that precedes every constructor body of `student`: `key` is
default-constructed to the empty string, `value` is left as the storage holds it. -/
def member_init (σ : Machine) (this : Addr) : Machine :=
  assign_key σ this ""

/-- The constructor `student(string key, int value)`. -/
def student.student (σ : Machine) (this : Addr) (key : String) (value : Int) : Machine :=
  let σ := member_init σ this
  let σ := assign_key σ this key
  let σ := assign_value σ this value
  σ

/-- The constructor `student()`. -/
def student.student_default (σ : Machine) (this : Addr) : Machine :=
  let σ := member_init σ this
  let σ := assign_key σ this "null"
  let σ := assign_value σ this (-1)
  σ

/-- The constructor `student(student &p)`: `p` is the address of the source object. -/
def student.student_copy (σ : Machine) (this : Addr) (p : Addr) : Machine :=
  let σ := member_init σ this
  let σ := assign_key σ this (σ.objs p).key
  let σ := assign_value σ this (σ.objs p).value
  σ

/-- Decimal rendering of an `int` as `ostream::operator<<(int)` produces it in the default
formatting state: base 10, a leading `-` for negatives, no padding. -/
def decimal (v : Int) : String :=
  match v with
  | Int.ofNat n => String.mk (Nat.toDigits 10 n)
  | Int.negSucc n => String.mk ('-' :: Nat.toDigits 10 (n + 1))

/-- The insertion `cout << s` for a string. -/
def put_string (σ : Machine) (s : String) : Machine :=
  { σ with cout := σ.cout ++ s }

/-- The insertion `cout << v` for an `int`. -/
def put_int (σ : Machine) (v : Int) : Machine :=
  { σ with cout := σ.cout ++ decimal v }

/-- The member function `void printinfo()`. -/
def student.printinfo (σ : Machine) (this : Addr) : Machine :=
  let σ := put_string σ "key "
  let σ := put_string σ (σ.objs this).key
  let σ := put_string σ "\n"
  let σ := put_string σ " value "
  let σ := put_int σ (σ.objs this).value
  let σ := put_string σ "\n"
  σ

/-- The driver `int main()`: the automatic objects `s1`, `s2`, `s3` live at the distinct
addresses 0, 1, 2; the result is the final machine state and the returned status. -/
def main (σ : Machine) : Machine × Int :=
  let s1 : Addr := 0
  let s2 : Addr := 1
  let s3 : Addr := 2
  let σ := student.student_default σ s1
  let σ := student.printinfo σ s1
  let σ := student.student σ s2 "sumeet" 2
  let σ := student.printinfo σ s2
  let σ := student.student_copy σ s3 s2
  let σ := student.printinfo σ s3
  (σ, 0)

/-- A machine at program start: nothing written, every slot holding the object `o`. -/
def Machine.start (o : student) : Machine :=
  { objs := fun _ => o, cout := "" }

/-- Machine state with object lifetimes: beside the machine, the addresses at which a
`student` object has been constructed. In C++ a member function may only be called on, and
a reference may only be read through to, an object whose constructor has completed; a
checked operation that would do otherwise has no result (`none`). -/
structure Checked where
  machine : Machine
  live : Addr → Bool

/-- The state after a constructor has completed on `this`, leaving the machine `σ`: the
object at `this` is now constructed. -/
def Checked.constructed (s : Checked) (this : Addr) (σ : Machine) : Checked :=
  { machine := σ, live := fun a => if a = this then true else s.live a }

/-- The constructor `student(student &p)`, with lifetimes: it reads `p.key` and `p.value`,
so `p` has to be a constructed object other than the one under construction. -/
def student.student_copy_checked (s : Checked) (this : Addr) (p : Addr) : Option Checked :=
  if p ≠ this ∧ s.live p = true then
    some (s.constructed this (student.student_copy s.machine this p))
  else none

/-- The member function `void printinfo()`, with lifetimes: it is called on, and reads the
members of, the object at `this`, which has to be constructed. -/
def student.printinfo_checked (s : Checked) (this : Addr) : Option Checked :=
  if s.live this = true then
    some { s with machine := student.printinfo s.machine this }
  else none

/-- A checked machine at program start: no object constructed yet. -/
def Checked.start (o : student) : Checked :=
  { machine := Machine.start o, live := fun _ => false }

/-! ## Store and stream lemmas -/

theorem assign_key_objs_same (σ : Machine) (o : Addr) (k : String) :
    (assign_key σ o k).objs o = { σ.objs o with key := k } := by
  simp [assign_key]

theorem assign_key_objs_other (σ : Machine) (o a : Addr) (k : String) (h : a ≠ o) :
    (assign_key σ o k).objs a = σ.objs a := by
  simp [assign_key, h]

theorem assign_value_objs_same (σ : Machine) (o : Addr) (v : Int) :
    (assign_value σ o v).objs o = { σ.objs o with value := v } := by
  simp [assign_value]

theorem assign_value_objs_other (σ : Machine) (o a : Addr) (v : Int) (h : a ≠ o) :
    (assign_value σ o v).objs a = σ.objs a := by
  simp [assign_value, h]

theorem assign_key_cout (σ : Machine) (o : Addr) (k : String) :
    (assign_key σ o k).cout = σ.cout := rfl

theorem assign_value_cout (σ : Machine) (o : Addr) (v : Int) :
    (assign_value σ o v).cout = σ.cout := rfl

theorem printinfo_objs (σ : Machine) (this : Addr) :
    (student.printinfo σ this).objs = σ.objs := rfl

theorem printinfo_cout (σ : Machine) (this : Addr) :
    (student.printinfo σ this).cout
      = σ.cout ++ ("key " ++ (σ.objs this).key ++ "\n" ++ " value "
          ++ decimal (σ.objs this).value ++ "\n") := by
  simp [student.printinfo, put_string, put_int, String.append_assoc]

theorem student_copy_objs_this (σ : Machine) (this p : Addr) (h : this ≠ p) :
    (student.student_copy σ this p).objs this = σ.objs p := by
  have h2 : p ≠ this := fun e => h e.symm
  simp [student.student_copy, member_init, assign_key, assign_value, h2]

theorem student_copy_objs_other (σ : Machine) (this a : Addr) (p : Addr) (h : a ≠ this) :
    (student.student_copy σ this p).objs a = σ.objs a := by
  simp [student.student_copy, member_init, assign_key, assign_value, h]

theorem student_params_objs_this (σ : Machine) (this : Addr) (n : String) (v : Int) :
    (student.student σ this n v).objs this = { key := n, value := v } := by
  simp [student.student, member_init, assign_key, assign_value]

theorem student_params_objs_other (σ : Machine) (this a : Addr) (n : String) (v : Int)
    (h : a ≠ this) : (student.student σ this n v).objs a = σ.objs a := by
  simp [student.student, member_init, assign_key, assign_value, h]

theorem student_default_objs_this (σ : Machine) (this : Addr) :
    (student.student_default σ this).objs this = { key := "null", value := -1 } := by
  simp [student.student_default, member_init, assign_key, assign_value]

theorem student_params_cout (σ : Machine) (this : Addr) (n : String) (v : Int) :
    (student.student σ this n v).cout = σ.cout := rfl

theorem student_default_cout (σ : Machine) (this : Addr) :
    (student.student_default σ this).cout = σ.cout := rfl

theorem student_copy_cout (σ : Machine) (this p : Addr) :
    (student.student_copy σ this p).cout = σ.cout := rfl

theorem decimal_neg_one : decimal (-1) = "-1" := by decide

theorem decimal_two : decimal 2 = "2" := by decide

theorem decimal_zero : decimal 0 = "0" := by decide

/-- The whole output of the driver, relative to what `cout` held before. -/
theorem main_cout (σ : Machine) :
    (main σ).1.cout
      = σ.cout ++ "key null\n value -1\nkey sumeet\n value 2\nkey sumeet\n value 2\n" := by
  have h21 : (2 : Addr) ≠ 1 := by decide
  simp only [main, printinfo_cout, printinfo_objs, student_copy_cout, student_params_cout,
    student_default_cout, student_copy_objs_this _ 2 1 h21, student_params_objs_this,
    student_default_objs_this, decimal_neg_one, decimal_two, String.append_assoc]
  rfl

/-! ## Characters of the decimal rendering -/

/-- The rendering agrees with the standard decimal rendering of an integer. -/
theorem decimal_eq_toString (v : Int) : decimal v = toString v := by
  cases v <;> rfl

theorem digitChar_isDigit : ∀ d, d < 10 → (Nat.digitChar d).isDigit = true := by decide

theorem toDigitsCore_isDigit (fuel : Nat) : ∀ (n : Nat) (ds : List Char),
    (∀ c ∈ ds, c.isDigit = true) →
      ∀ c ∈ Nat.toDigitsCore 10 fuel n ds, c.isDigit = true := by
  induction fuel with
  | zero => intro n ds h; simpa [Nat.toDigitsCore] using h
  | succ f ih =>
    intro n ds h
    have hd : ∀ c ∈ Nat.digitChar (n % 10) :: ds, c.isDigit = true := by
      intro c hc
      rcases List.mem_cons.mp hc with rfl | hc
      · exact digitChar_isDigit _ (Nat.mod_lt _ (by decide))
      · exact h c hc
    simp only [Nat.toDigitsCore]
    split
    · exact hd
    · exact ih _ _ hd

theorem toDigits_isDigit (n : Nat) : ∀ c ∈ Nat.toDigits 10 n, c.isDigit = true :=
  toDigitsCore_isDigit (n + 1) n [] (by simp)

/-- Every character of a decimal rendering is a digit or the sign. -/
theorem decimal_chars (v : Int) : ∀ c ∈ (decimal v).data, c.isDigit = true ∨ c = '-' := by
  intro c hc
  cases v with
  | ofNat n => exact Or.inl (toDigits_isDigit n c hc)
  | negSucc n =>
    rcases List.mem_cons.mp hc with rfl | hc
    · exact Or.inr rfl
    · exact Or.inl (toDigits_isDigit (n + 1) c hc)

theorem decimal_no_newline (v : Int) : '\n' ∉ (decimal v).data := by
  intro h
  rcases decimal_chars v _ h with h | h
  · exact absurd h (by decide)
  · exact absurd h (by decide)

/-- Newlines in the text of `printinfo`: the two it writes itself and those of the key. -/
theorem render_count_newline (k : String) (v : Int) :
    ("key " ++ k ++ "\n" ++ " value " ++ decimal v ++ "\n").data.count '\n'
      = k.data.count '\n' + 2 := by
  have hv : (decimal v).data.count '\n' = 0 := List.count_eq_zero.mpr (decimal_no_newline v)
  have h1 : ("key " : String).data.count '\n' = 0 := by decide
  have h2 : ("\n" : String).data.count '\n' = 1 := by decide
  have h3 : (" value " : String).data.count '\n' = 0 := by decide
  simp only [String.data_append, List.count_append, hv, h1, h2, h3]
  omega

/-! ## Reading a rendering back -/

theorem digitChar_toNat : ∀ d, d < 10 → (Nat.digitChar d).toNat - 48 = d := by decide

theorem toDigitsCore_append (fuel : Nat) : ∀ (n : Nat) (ds : List Char),
    Nat.toDigitsCore 10 fuel n ds = Nat.toDigitsCore 10 fuel n [] ++ ds := by
  induction fuel with
  | zero => intro n ds; simp [Nat.toDigitsCore]
  | succ f ih =>
    intro n ds
    simp only [Nat.toDigitsCore]
    split
    · simp
    · rw [ih _ (Nat.digitChar (n % 10) :: ds), ih _ [Nat.digitChar (n % 10)]]
      simp

/-- Reading the digits of `n` back, most significant first, gives `n`. -/
theorem toDigitsCore_value (fuel : Nat) : ∀ n : Nat, n < fuel →
    (Nat.toDigitsCore 10 fuel n []).foldl (fun acc c => acc * 10 + (c.toNat - 48)) 0 = n := by
  induction fuel with
  | zero => intro n h; omega
  | succ f ih =>
    intro n h
    simp only [Nat.toDigitsCore]
    split
    · simp only [List.foldl, Nat.zero_mul, Nat.zero_add]
      rw [digitChar_toNat _ (Nat.mod_lt _ (by decide))]
      omega
    · rw [toDigitsCore_append, List.foldl_append, ih (n / 10) (by omega)]
      simp only [List.foldl]
      rw [digitChar_toNat _ (Nat.mod_lt _ (by decide))]
      omega

theorem toDigits_injective (m n : Nat) (h : Nat.toDigits 10 m = Nat.toDigits 10 n) :
    m = n := by
  have hm := toDigitsCore_value (m + 1) m (Nat.lt_succ_self m)
  have hn := toDigitsCore_value (n + 1) n (Nat.lt_succ_self n)
  unfold Nat.toDigits at h
  rw [h] at hm
  exact hm.symm.trans hn

theorem toDigits_no_sign (n : Nat) : '-' ∉ Nat.toDigits 10 n := fun h =>
  absurd (toDigits_isDigit n _ h) (by decide)

/-- Distinct integers have distinct decimal renderings. -/
theorem decimal_injective (v w : Int) (h : decimal v = decimal w) : v = w := by
  have hd : (decimal v).data = (decimal w).data := congrArg String.data h
  cases v with
  | ofNat m =>
    cases w with
    | ofNat n =>
      have e : Nat.toDigits 10 m = Nat.toDigits 10 n := hd
      rw [toDigits_injective m n e]
    | negSucc n =>
      have e : Nat.toDigits 10 m = '-' :: Nat.toDigits 10 (n + 1) := hd
      exact absurd (e ▸ List.mem_cons_self _ _) (toDigits_no_sign m)
  | negSucc m =>
    cases w with
    | ofNat n =>
      have e : '-' :: Nat.toDigits 10 (m + 1) = Nat.toDigits 10 n := hd
      exact absurd (e ▸ List.mem_cons_self _ _) (toDigits_no_sign n)
    | negSucc n =>
      have e : '-' :: Nat.toDigits 10 (m + 1) = '-' :: Nat.toDigits 10 (n + 1) := hd
      have e1 := toDigits_injective (m + 1) (n + 1) (List.cons.inj e).2
      have e2 : m = n := by omega
      rw [e2]

/-- Two texts cut at a separator that neither tail contains are cut at the same place. -/
theorem split_at_last (x : Char) : ∀ (l1 l2 s1 s2 : List Char), x ∉ s1 → x ∉ s2 →
    l1 ++ x :: s1 = l2 ++ x :: s2 → l1 = l2 ∧ s1 = s2 := by
  intro l1
  induction l1 with
  | nil =>
    intro l2 s1 s2 h1 h2 h
    cases l2 with
    | nil => simpa using h
    | cons b l2 =>
      simp only [List.nil_append, List.cons_append, List.cons.injEq] at h
      exact absurd (h.2 ▸ (by simp : x ∈ l2 ++ x :: s2)) h1
  | cons a l1 ih =>
    intro l2 s1 s2 h1 h2 h
    cases l2 with
    | nil =>
      simp only [List.nil_append, List.cons_append, List.cons.injEq] at h
      exact absurd (h.2 ▸ (by simp : x ∈ l1 ++ x :: s1)) h2
    | cons b l2 =>
      simp only [List.cons_append, List.cons.injEq] at h
      obtain ⟨rfl, h⟩ := h
      obtain ⟨rfl, rfl⟩ := ih l2 s1 s2 h1 h2 h
      exact ⟨rfl, rfl⟩

theorem string_append_left_cancel (a b c : String) (h : a ++ b = a ++ c) : b = c := by
  have h1 := congrArg String.data h
  rw [String.data_append, String.data_append] at h1
  exact String.ext (List.append_cancel_left h1)

theorem value_line_no_newline (v : Int) :
    '\n' ∉ (" value " : String).data ++ (decimal v).data := by
  simp only [List.mem_append, not_or]
  exact ⟨by decide, decimal_no_newline v⟩

/-- The text of `printinfo` determines the key and the value it was written from. -/
theorem render_injective (k1 k2 : String) (v1 v2 : Int)
    (h : "key " ++ k1 ++ "\n" ++ " value " ++ decimal v1 ++ "\n"
        = "key " ++ k2 ++ "\n" ++ " value " ++ decimal v2 ++ "\n") :
    k1 = k2 ∧ v1 = v2 := by
  have h1 := congrArg String.data h
  rw [String.data_append, String.data_append _ "\n"] at h1
  have h2 := List.append_cancel_right h1
  simp only [String.data_append, List.append_assoc] at h2
  have h3 := List.append_cancel_left h2
  obtain ⟨hk, hs⟩ := split_at_last '\n' k1.data k2.data _ _
    (value_line_no_newline v1) (value_line_no_newline v2) h3
  exact ⟨String.ext hk, decimal_injective v1 v2 (String.ext (List.append_cancel_left hs))⟩

/-! ## Runs with object lifetimes -/

/-- Calling `printinfo` on storage that holds no constructed object has no result. -/
theorem printinfo_checked_unconstructed (s : Checked) (this : Addr)
    (h : s.live this = false) : student.printinfo_checked s this = none := by
  simp [student.printinfo_checked, h]

/-- Copying from storage that holds no constructed object has no result. -/
theorem student_copy_checked_unconstructed (s : Checked) (this p : Addr)
    (h : s.live p = false) : student.student_copy_checked s this p = none := by
  simp [student.student_copy_checked, h]

/-- Copy-constructing an object from itself has no result. -/
theorem student_copy_checked_self (s : Checked) (this : Addr) :
    student.student_copy_checked s this this = none := by
  simp [student.student_copy_checked]

/-- C1: the default constructor `student()` leaves in the object under construction the key
`"null"` and the value `-1`, whatever the storage held before. -/
theorem student_default_fields (σ : Machine) (this : Addr) :
    ((student.student_default σ this).objs this).key = "null"
      ∧ ((student.student_default σ this).objs this).value = -1 := by
  simp [student.student_default, member_init, assign_key, assign_value]

/-- C2: for every text `n` and every integer `v`, the constructor `student(n, v)` leaves in
the object under construction exactly the key `n` and the value `v`. -/
theorem student_params_fields (σ : Machine) (this : Addr) (n : String) (v : Int) :
    ((student.student σ this n v).objs this).key = n
      ∧ ((student.student σ this n v).objs this).value = v := by
  simp [student.student, member_init, assign_key, assign_value]

/-- C3: for every source object `r`, copy construction of a new object `c` (storage distinct
from that of `r`) gives `c.key = r.key` and `c.value = r.value`, the fields of `r` being
read at the moment of copying. -/
theorem student_copy_fields (σ : Machine) (c r : Addr) (h : c ≠ r) :
    ((student.student_copy σ c r).objs c).key = (σ.objs r).key
      ∧ ((student.student_copy σ c r).objs c).value = (σ.objs r).value := by
  rw [student_copy_objs_this σ c r h]
  exact ⟨rfl, rfl⟩

/-- Witness for C3: the driver's copy, the object at address 2 built from the one at 1. -/
theorem student_copy_fields_witness :
    (2 : Addr) ≠ 1
      ∧ ((student.student_copy (Machine.start ⟨"sumeet", 2⟩) 2 1).objs 2).key = "sumeet"
      ∧ ((student.student_copy (Machine.start ⟨"sumeet", 2⟩) 2 1).objs 2).value = 2 :=
  ⟨by decide, student_copy_fields (Machine.start ⟨"sumeet", 2⟩) 2 1 (by decide)⟩

/-- C4: `printinfo` on a record `r` appends to `cout` exactly
`"key " ++ r.key ++ "\n" ++ " value " ++ decimal r.value ++ "\n"`; in particular a record
constructed from the empty name and the value 0 is rendered as `"key \n value 0\n"`. -/
theorem printinfo_writes (σ : Machine) (this : Addr) :
    (student.printinfo σ this).cout
        = σ.cout ++ ("key " ++ (σ.objs this).key ++ "\n" ++ " value "
            ++ decimal (σ.objs this).value ++ "\n")
      ∧ (student.printinfo (student.student σ this "" 0) this).cout
        = σ.cout ++ "key \n value 0\n" := by
  refine ⟨printinfo_cout σ this, ?_⟩
  rw [printinfo_cout, student_params_objs_this, student_params_cout, decimal_zero]
  rfl

/-- C5: the driver appends to `cout` exactly the six lines `key null`, ` value -1`,
`key sumeet`, ` value 2`, `key sumeet`, ` value 2`, each ended by a newline, and nothing
else; started with nothing written, that text is the whole output. -/
theorem main_output (σ : Machine) (o : student) :
    (main σ).1.cout
        = σ.cout ++ "key null\n value -1\nkey sumeet\n value 2\nkey sumeet\n value 2\n"
      ∧ (main (Machine.start o)).1.cout
        = "key null\n value -1\nkey sumeet\n value 2\nkey sumeet\n value 2\n" := by
  refine ⟨main_cout σ, ?_⟩
  rw [main_cout]
  rfl

/-- C6: `printinfo` leaves the key and the value of the record unchanged, and two calls in a
row on the same record append the same text `t` both times. -/
theorem printinfo_pure (σ : Machine) (this : Addr) :
    ((student.printinfo σ this).objs this).key = (σ.objs this).key
      ∧ ((student.printinfo σ this).objs this).value = (σ.objs this).value
      ∧ ∃ t : String, (student.printinfo σ this).cout = σ.cout ++ t
          ∧ (student.printinfo (student.printinfo σ this) this).cout
              = (student.printinfo σ this).cout ++ t := by
  refine ⟨rfl, rfl, _, printinfo_cout σ this, ?_⟩
  rw [printinfo_cout (student.printinfo σ this) this, printinfo_objs]

/-- C7: after a new object `c` is copy-constructed from `r`, assigning a new key or a new
value to `r` leaves the fields of `c` equal to those `r` had at the moment of copying, and
assigning a new key or a new value to `c` leaves `r` as it was: the fields are duplicated,
not shared. -/
theorem student_copy_independent (σ : Machine) (c r : Addr) (h : c ≠ r)
    (k : String) (v : Int) :
    (assign_key (student.student_copy σ c r) r k).objs c = σ.objs r
      ∧ (assign_value (student.student_copy σ c r) r v).objs c = σ.objs r
      ∧ (assign_key (student.student_copy σ c r) c k).objs r = σ.objs r
      ∧ (assign_value (student.student_copy σ c r) c v).objs r = σ.objs r := by
  have h2 : r ≠ c := fun e => h e.symm
  refine ⟨?_, ?_, ?_, ?_⟩
  · rw [assign_key_objs_other _ r c k h, student_copy_objs_this σ c r h]
  · rw [assign_value_objs_other _ r c v h, student_copy_objs_this σ c r h]
  · rw [assign_key_objs_other _ c r k h2, student_copy_objs_other σ c r r h2]
  · rw [assign_value_objs_other _ c r v h2, student_copy_objs_other σ c r r h2]

/-- Witness for C7: the driver's `s3` copied from `s2`, then `s2` or `s3` overwritten. -/
theorem student_copy_independent_witness :
    (2 : Addr) ≠ 1
      ∧ (assign_key (student.student_copy (Machine.start ⟨"sumeet", 2⟩) 2 1) 1 "x").objs 2
          = (Machine.start ⟨"sumeet", 2⟩).objs 1
      ∧ (assign_value (student.student_copy (Machine.start ⟨"sumeet", 2⟩) 2 1) 1 9).objs 2
          = (Machine.start ⟨"sumeet", 2⟩).objs 1
      ∧ (assign_key (student.student_copy (Machine.start ⟨"sumeet", 2⟩) 2 1) 2 "x").objs 1
          = (Machine.start ⟨"sumeet", 2⟩).objs 1
      ∧ (assign_value (student.student_copy (Machine.start ⟨"sumeet", 2⟩) 2 1) 2 9).objs 1
          = (Machine.start ⟨"sumeet", 2⟩).objs 1 :=
  ⟨by decide,
    student_copy_independent (Machine.start ⟨"sumeet", 2⟩) 2 1 (by decide) "x" 9⟩

/-- C8, as stated, fails: for the record with key `"a\nb"` and value 1 the text written by
`printinfo` is `"key a\nb\n value 1\n"`, which holds three newline characters, not two. -/
theorem printinfo_two_lines_counterexample :
    ¬ ∃ t : String,
        (student.printinfo (student.student (Machine.start ⟨"", 0⟩) 0 "a\nb" 1) 0).cout
            = (student.student (Machine.start ⟨"", 0⟩) 0 "a\nb" 1).cout ++ t
          ∧ t.data.count '\n' = 2 := by
  rintro ⟨t, ht, hc⟩
  have hl : (student.printinfo (student.student (Machine.start ⟨"", 0⟩) 0 "a\nb" 1) 0).cout
      = "key a\nb\n value 1\n" := by rfl
  have hr : (student.student (Machine.start ⟨"", 0⟩) 0 "a\nb" 1).cout = "" := rfl
  rw [hl, hr, String.empty_append] at ht
  subst ht
  revert hc
  decide

/-- C8, amended: for every record whose key holds no newline character, the text written by
`printinfo` consists of exactly two lines `l1` and `l2`, each free of newlines and each
ended by a newline; it holds exactly two newline characters, the last of which ends it. -/
theorem printinfo_two_lines (σ : Machine) (this : Addr)
    (h : '\n' ∉ (σ.objs this).key.data) :
    ∃ l1 l2 : String,
      (student.printinfo σ this).cout = σ.cout ++ (l1 ++ "\n" ++ l2 ++ "\n")
        ∧ '\n' ∉ l1.data ∧ '\n' ∉ l2.data
        ∧ (l1 ++ "\n" ++ l2 ++ "\n").data.count '\n' = 2
        ∧ (l1 ++ "\n" ++ l2 ++ "\n").data.getLast? = some '\n' := by
  refine ⟨"key " ++ (σ.objs this).key, " value " ++ decimal (σ.objs this).value,
    ?_, ?_, ?_, ?_, ?_⟩
  · rw [printinfo_cout]
    simp only [String.append_assoc]
  · simp only [String.data_append, List.mem_append, not_or]
    exact ⟨by decide, h⟩
  · simp only [String.data_append, List.mem_append, not_or]
    exact ⟨by decide, decimal_no_newline _⟩
  · have e : "key " ++ (σ.objs this).key ++ "\n" ++ (" value " ++ decimal (σ.objs this).value)
        ++ "\n" = "key " ++ (σ.objs this).key ++ "\n" ++ " value "
        ++ decimal (σ.objs this).value ++ "\n" := by
      simp only [String.append_assoc]
    rw [e, render_count_newline, List.count_eq_zero.mpr h]
  · rw [String.data_append]
    exact List.getLast?_concat _

/-- Witness for C8 (amended): the driver's second record, key `"sumeet"` and value 2. -/
theorem printinfo_two_lines_witness :
    '\n' ∉ ((Machine.start ⟨"sumeet", 2⟩).objs 1).key.data
      ∧ ∃ l1 l2 : String,
        (student.printinfo (Machine.start ⟨"sumeet", 2⟩) 1).cout
            = (Machine.start ⟨"sumeet", 2⟩).cout ++ (l1 ++ "\n" ++ l2 ++ "\n")
          ∧ '\n' ∉ l1.data ∧ '\n' ∉ l2.data
          ∧ (l1 ++ "\n" ++ l2 ++ "\n").data.count '\n' = 2
          ∧ (l1 ++ "\n" ++ l2 ++ "\n").data.getLast? = some '\n' :=
  ⟨by decide, printinfo_two_lines (Machine.start ⟨"sumeet", 2⟩) 1 (by decide)⟩

/-- C10: copy construction of a new object `c` from `r` leaves the key and the value of the
source `r` as they were before the copy. -/
theorem student_copy_source_unchanged (σ : Machine) (c r : Addr) (h : c ≠ r) :
    ((student.student_copy σ c r).objs r).key = (σ.objs r).key
      ∧ ((student.student_copy σ c r).objs r).value = (σ.objs r).value := by
  rw [student_copy_objs_other σ c r r (fun e => h e.symm)]
  exact ⟨rfl, rfl⟩

/-- Witness for C10: the driver's `s3` (address 2) copied from `s2` (address 1). -/
theorem student_copy_source_unchanged_witness :
    (2 : Addr) ≠ 1
      ∧ ((student.student_copy (Machine.start ⟨"sumeet", 2⟩) 2 1).objs 1).key = "sumeet"
      ∧ ((student.student_copy (Machine.start ⟨"sumeet", 2⟩) 2 1).objs 1).value = 2 :=
  ⟨by decide, student_copy_source_unchanged (Machine.start ⟨"sumeet", 2⟩) 2 1 (by decide)⟩

/-- C11: `printinfo` is injective: if it appends the same text `t` for the record at `a1`
in one machine state and for the record at `a2` in another, the two records have the same
key and the same value, whatever characters (spaces, newlines, the text `" value "`) the
keys hold. -/
theorem printinfo_injective (σ1 σ2 : Machine) (a1 a2 : Addr) (t : String)
    (h1 : (student.printinfo σ1 a1).cout = σ1.cout ++ t)
    (h2 : (student.printinfo σ2 a2).cout = σ2.cout ++ t) :
    (σ1.objs a1).key = (σ2.objs a2).key ∧ (σ1.objs a1).value = (σ2.objs a2).value := by
  rw [printinfo_cout] at h1 h2
  have e1 := string_append_left_cancel _ _ _ h1
  have e2 := string_append_left_cancel _ _ _ h2
  exact render_injective _ _ _ _ (e1.trans e2.symm)

/-- Witness for C11: a record with key `"a\n value 1"` and value 2, once in a fresh machine
and once built by the constructor after some output; both renderings are the same text. -/
theorem printinfo_injective_witness :
    (student.printinfo (Machine.start ⟨"a\n value 1", 2⟩) 0).cout
        = (Machine.start ⟨"a\n value 1", 2⟩).cout ++ "key a\n value 1\n value 2\n"
      ∧ (student.printinfo
            (student.student (put_string (Machine.start ⟨"", 0⟩) "x") 3 "a\n value 1" 2) 3).cout
        = (student.student (put_string (Machine.start ⟨"", 0⟩) "x") 3 "a\n value 1" 2).cout
            ++ "key a\n value 1\n value 2\n"
      ∧ ((Machine.start ⟨"a\n value 1", 2⟩).objs 0).key
        = ((student.student (put_string (Machine.start ⟨"", 0⟩) "x") 3
            "a\n value 1" 2).objs 3).key
      ∧ ((Machine.start ⟨"a\n value 1", 2⟩).objs 0).value
        = ((student.student (put_string (Machine.start ⟨"", 0⟩) "x") 3
            "a\n value 1" 2).objs 3).value :=
  ⟨by rfl, by rfl,
    printinfo_injective (Machine.start ⟨"a\n value 1", 2⟩)
      (student.student (put_string (Machine.start ⟨"", 0⟩) "x") 3 "a\n value 1" 2) 0 3
      "key a\n value 1\n value 2\n" (by rfl) (by rfl)⟩

/-- C12: for a new object `c` copy-constructed from `r`, `printinfo` on `c` appends the same
text `t` as `printinfo` on `r` (before the copy, as the driver does, and after it); a further
new object `d` copy-constructed from `c` has the fields of `r`; accordingly the driver's
output ends with the same pair of lines twice. -/
theorem student_copy_render (σ : Machine) (c r d : Addr) (hcr : c ≠ r) (hdc : d ≠ c) :
    (∃ t : String,
        (student.printinfo σ r).cout = σ.cout ++ t
          ∧ (student.printinfo (student.student_copy σ c r) c).cout
              = (student.student_copy σ c r).cout ++ t
          ∧ (student.printinfo (student.student_copy σ c r) r).cout
              = (student.student_copy σ c r).cout ++ t)
      ∧ ((student.student_copy (student.student_copy σ c r) d c).objs d).key = (σ.objs r).key
      ∧ ((student.student_copy (student.student_copy σ c r) d c).objs d).value
          = (σ.objs r).value
      ∧ (main σ).1.cout
          = σ.cout ++ ("key null\n value -1\n" ++ "key sumeet\n value 2\n"
              ++ "key sumeet\n value 2\n") := by
  have hrc : r ≠ c := fun e => hcr e.symm
  refine ⟨⟨_, printinfo_cout σ r, ?_, ?_⟩, ?_, ?_, ?_⟩
  · rw [printinfo_cout, student_copy_objs_this σ c r hcr]
  · rw [printinfo_cout, student_copy_objs_other σ c r r hrc]
  · rw [student_copy_objs_this _ d c hdc, student_copy_objs_this σ c r hcr]
  · rw [student_copy_objs_this _ d c hdc, student_copy_objs_this σ c r hcr]
  · rw [main_cout]
    rfl

/-- Witness for C12: the driver's `s3` (address 2) copied from `s2` (address 1), and a
further copy at address 3. -/
theorem student_copy_render_witness :
    (2 : Addr) ≠ 1 ∧ (3 : Addr) ≠ 2
      ∧ (∃ t : String,
        (student.printinfo (Machine.start ⟨"sumeet", 2⟩) 1).cout
            = (Machine.start ⟨"sumeet", 2⟩).cout ++ t
          ∧ (student.printinfo (student.student_copy (Machine.start ⟨"sumeet", 2⟩) 2 1) 2).cout
              = (student.student_copy (Machine.start ⟨"sumeet", 2⟩) 2 1).cout ++ t
          ∧ (student.printinfo (student.student_copy (Machine.start ⟨"sumeet", 2⟩) 2 1) 1).cout
              = (student.student_copy (Machine.start ⟨"sumeet", 2⟩) 2 1).cout ++ t)
      ∧ ((student.student_copy (student.student_copy (Machine.start ⟨"sumeet", 2⟩) 2 1)
            3 2).objs 3).key = "sumeet"
      ∧ ((student.student_copy (student.student_copy (Machine.start ⟨"sumeet", 2⟩) 2 1)
            3 2).objs 3).value = 2
      ∧ (main (Machine.start ⟨"sumeet", 2⟩)).1.cout
          = (Machine.start ⟨"sumeet", 2⟩).cout ++ ("key null\n value -1\n"
              ++ "key sumeet\n value 2\n" ++ "key sumeet\n value 2\n") :=
  ⟨by decide, by decide,
    student_copy_render (Machine.start ⟨"sumeet", 2⟩) 2 1 3 (by decide) (by decide)⟩

end Oops
